import Mathlib

/-!
Verification development for the sdf fit-result computation and caching engine
(src/fit.py and src/sdf/result.py), as a shallow embedding in Lean.

Conventions of the embedding:
* Python floats are modelled as rationals; float-valued external functions
  (10 ** x, x ** 0.5, numpy constants, astropy unit conversions) are abstract
  parameters, since no claim depends on their numeric values.
* Python dicts are modelled as association lists in insertion order; a read is
  a last-write-wins lookup, matching dict assignment semantics.
* The filesystem maps each path to an optional modification time; a missing
  file has no mtime, and os.path.getmtime on it raises, modelled with Except.
* External modules that are not under src (sdf.fitting, sdf.photometry,
  sdf.spectrum, sdf.model, sdf.config, pymultinest) appear either as abstract
  parameters or, where a claim needs their contract, as definitions modelled
  from the spec and marked as such.
-/

/-- Decidable equality for Except results, used to evaluate concrete
outcomes. -/
instance {e a : Type} [DecidableEq e] [DecidableEq a] : DecidableEq (Except e a) :=
  fun x y =>
    match x, y with
    | .ok u, .ok v =>
      if h : u = v then isTrue (by rw [h]) else isFalse (fun hh => h (Except.ok.inj hh))
    | .error u, .error v =>
      if h : u = v then isTrue (by rw [h]) else isFalse (fun hh => h (Except.error.inj hh))
    | .ok _, .error _ => isFalse (fun hh => Except.noConfusion hh)
    | .error _, .ok _ => isFalse (fun hh => Except.noConfusion hh)

/-! ### String helpers (os.path.dirname, os.path.basename, str.rstrip,
Python substring containment and str.replace), over lists of characters so
that everything is structurally recursive and kernel-computable. -/

/-- Split a character list on a separator character. -/
def split_on_char (c : Char) : List Char → List (List Char)
  | [] => [[]]
  | h :: hs =>
    match split_on_char c hs with
    | [] => [[]]
    | g :: gs => if h = c then [] :: g :: gs else (h :: g) :: gs

/-- Join character-list pieces with a separator list between them. -/
def join_with (sep : List Char) : List (List Char) → List Char
  | [] => []
  | [x] => x
  | x :: y :: rest => x ++ sep ++ join_with sep (y :: rest)

/-- os.path.dirname: everything before the last slash (empty if no slash). -/
def dirname (p : String) : String :=
  let parts := split_on_char '/' p.toList
  if parts.length ≤ 1 then "" else (join_with ['/'] parts.dropLast).asString

/-- os.path.basename: everything after the last slash. -/
def basename (p : String) : String :=
  (split_on_char '/' p.toList).getLastD [] |>.asString

/-- Python str.rstrip(chars): drop trailing characters belonging to the set. -/
def rstrip_chars (s : String) (chars : String) : String :=
  ((s.toList.reverse.dropWhile (fun c => chars.toList.contains c)).reverse).asString

/-- Whether pat is a leading piece of hay. -/
def starts_with : List Char → List Char → Bool
  | [], _ => true
  | _ :: _, [] => false
  | p :: ps, h :: hs => p = h && starts_with ps hs

/-- Whether pat occurs inside hay. -/
def has_sub (pat : List Char) : List Char → Bool
  | [] => starts_with pat []
  | h :: hs => starts_with pat (h :: hs) || has_sub pat hs

/-- Python substring containment: pat in hay. -/
def containsSub (pat hay : String) : Bool :=
  has_sub pat.toList hay.toList

/-- Fuel-driven worker for replacing every occurrence of pat. -/
def replace_aux (pat rep : List Char) : Nat → List Char → List Char
  | 0, l => l
  | _ + 1, [] => []
  | fuel + 1, h :: hs =>
    if starts_with pat (h :: hs) then
      rep ++ replace_aux pat rep fuel (List.drop (pat.length - 1) hs)
    else
      h :: replace_aux pat rep fuel hs

/-- Python str.replace(pat, rep), replacing all occurrences; the empty
pattern is never used by the source. -/
def replace_sub (s pat rep : String) : String :=
  if pat.toList = [] then s
  else (replace_aux pat.toList rep.toList s.toList.length s.toList).asString

/-! ### Configuration and Result.file_info (src/sdf/result.py lines 33-72). -/

/-- The configuration values file_info reads: the star and disk component
membership lists of cfg.models and the two path suffixes of cfg.fitting.
The sdf.config module is not under src, so these are inputs. -/
structure Config where
  star : List String
  disk : List String
  pmn_dir_suffix : String
  pmn_model_suffix : String
deriving DecidableEq

/-- The classification loop of file_info (result.py lines 39-49): each
component is tagged star if it is in the configured star list, otherwise
disk if it is in the configured disk list, otherwise SdfError is raised. -/
def classify_comps (starL diskL : List String) : List String → Except String (List String)
  | [] => .ok []
  | c :: cs =>
    if c ∈ starL then
      (classify_comps starL diskL cs).map (fun ts => "star" :: ts)
    else if c ∈ diskL then
      (classify_comps starL diskL cs).map (fun ts => "disk" :: ts)
    else
      .error ("could not assign comp " ++ c ++ " to star or disk")

/-- The path-derived identity attributes set by file_info. -/
structure FileInfo where
  model_comps : List String
  star_or_disk : List String
  n_comps : Nat
  rawphot : String
  path : String
  id : String
  pmn_dir : String
  pmn_base : String
  pickle : String
deriving DecidableEq

/-- Result.file_info (result.py lines 33-72): classify the components, then
derive all path identity fields from the rawphot path and the component
names. The os.mkdir side effect has no bearing on any claim and is dropped. -/
def file_info (cfg : Config) (rawphot : String) (model_comps : List String) :
    Except String FileInfo :=
  (classify_comps cfg.star cfg.disk model_comps).map fun tags =>
    let path := dirname rawphot
    let id := rstrip_chars (basename rawphot) "-rawphot.txt"
    let pmn_dir := path ++ "/" ++ id ++ cfg.pmn_dir_suffix
    let pmn_base := pmn_dir ++ "/" ++
      (join_with ['+'] (model_comps.map String.toList)).asString ++ cfg.pmn_model_suffix
    { model_comps := model_comps
      star_or_disk := tags
      n_comps := model_comps.length
      rawphot := rawphot
      path := path
      id := id
      pmn_dir := pmn_dir
      pmn_base := pmn_base
      pickle := pmn_base ++ ".pkl" }

/-! ### Result.get control flow (src/sdf/result.py lines 75-137 and 411-416):
cache validation against mtimes, the no-photometry early return, and the
in-place file_info refresh of an unpickled result. -/

/-- The persisted attributes of a pickled Result relevant to the claims:
the path identity block plus the stored analysis payload. -/
structure FitResult where
  info : FileInfo
  evidence : Rat
  best_params : List Rat
  best_params_1sig : List Rat
  distributions : List (String × List Rat)
  star : List (List (String × Rat))
  disk_r : List (List (String × Rat))
deriving DecidableEq

/-- The world Result.get runs against: the call arguments, the filesystem
modification times (none = file missing), what pickle.load would return,
whether the photometry parser finds any usable photometry in the rawphot
file, and what a full inference plus derivation run would produce (the
latter two parsers and the sampler live outside src). -/
structure Env where
  cfg : Config
  rawphot : String
  model_comps : List String
  mtime : String → Option Rat
  stored : FitResult
  phot : Bool
  fresh : FitResult

/-- os.path.getmtime: the mtime if the file exists, otherwise an OSError. -/
def getmtime (env : Env) (p : String) : Except String Rat :=
  match env.mtime p with
  | some t => .ok t
  | none => .error ("FileNotFoundError " ++ p)

/-- The multinest marker file pmn_base + phys_live.points. -/
def marker (fi : FileInfo) : String :=
  fi.pmn_base ++ "phys_live.points"

/-- The inner mtime comparison of result.py lines 85-88, with Python
short-circuit evaluation: the marker mtime is only read when the pickle is
already newer than the rawphot file. -/
def cacheDecision (env : Env) (fi : FileInfo) : Except String Bool :=
  match getmtime env fi.pickle with
  | .error e => .error e
  | .ok pt =>
    match getmtime env fi.rawphot with
    | .error e => .error e
    | .ok rt =>
      if rt < pt then
        match getmtime env (marker fi) with
        | .error e => .error e
        | .ok mt => .ok (decide (mt < pt))
      else .ok false

/-- What one call of Result.get can end in. -/
inductive Outcome
  | cached (r : FitResult)
  | noData
  | computed (r : FitResult)
  | fsError (msg : String)
deriving DecidableEq

/-- The externally visible side effects Result.get can perform that matter
to the claims. -/
inductive Effect
  | readPhot
  | runMultinest
  | writePickle
deriving DecidableEq

/-- result.py lines 99-416 after the cache branch: read the photometry; if
there is none, return None having done nothing else; otherwise run the
inference and the derivations (their internals are embedded separately) and
pickle the outcome. -/
def recompute (env : Env) : Outcome × List Effect :=
  if env.phot then
    (.computed env.fresh, [.readPhot, .runMultinest, .writePickle])
  else
    (.noData, [.readPhot])

/-- result.py lines 84-94: with both force-update flags clear and the pickle
present, consult the mtimes; on a hit, return the unpickled result with its
file info recomputed in place from the current call arguments. -/
def get_after_info (env : Env) (fi : FileInfo) (update_mn update_an : Bool) :
    Outcome × List Effect :=
  if !update_mn && !update_an && (env.mtime fi.pickle).isSome then
    match cacheDecision env fi with
    | .error e => (.fsError e, [])
    | .ok true => (.cached { env.stored with info := fi }, [])
    | .ok false => recompute env
  else
    recompute env

/-- Result.get (result.py lines 75-94 head): construct the Result, which
runs file_info on the call arguments, then do the cache check. -/
def result_get (env : Env) (update_mn update_an : Bool) : Outcome × List Effect :=
  match file_info env.cfg env.rawphot env.model_comps with
  | .error e => (.fsError e, [])
  | .ok fi => get_after_info env fi update_mn update_an

/-! ### fit_results (src/fit.py lines 19-55): the model-selection loop.

Traced faithfully, the loop cannot run: each iteration first evaluates
result.Result(file, f, update=update, nospec=nospec) at fit.py line 38, but
Result.__init__ (result.py lines 26-30) has the signature
(self, rawphot, model_comps) and its lru_cache wrapper forwards keyword
arguments unchanged, so the call raises TypeError before any candidate fit
is obtained, for every family f. The exception propagates out of
fit_results, whatever the target and however many families are configured.
The rest of the loop body (the hasattr check at lines 40-44, the append,
the evidence gate at lines 46-50 and the final evidence sort) is dead code;
the gate expression, which does appear in the source, is embedded
separately below so its stopping condition can still be characterized. -/

/-- The TypeError raised at fit.py line 38. -/
def typeErrorMsg : String :=
  "TypeError: init got an unexpected keyword argument update"

/-- fit.py line 38: result.Result(file, f, update=update, nospec=nospec).
The lru_cache wrapper around Result.__init__ forwards update and nospec to
a function whose signature is (self, rawphot, model_comps), so the call
always raises TypeError; the success type is Empty because no Result object
can come back. -/
def result_construct_line38 (file : String) (f : List String)
    (update nospec : Bool) : Except String Empty :=
  .error typeErrorMsg

/-- The loop of fit.py lines 33-50: for each family, evaluate the line 38
construction first; the TypeError propagates out. The continuation that
would check hasattr(res, obs), append the result and apply the evidence
gate is unreachable, witnessed by the uninhabited success value. acc holds
the evidences of the results appended so far (always empty in fact). -/
def fit_results_go (file : String) (update nospec : Bool) :
    List (List String) → List Rat → Except String (List Rat)
  | [], acc => .ok acc
  | f :: _, _ =>
    match result_construct_line38 file f update nospec with
    | .error e => .error e
    | .ok res => res.elim

/-- fit_results (fit.py lines 19-55) over an explicit family list (the
source reads cfg.fitting, whose models table is configuration, not code
under src). With a nonempty family list the first iteration raises; with an
empty one the loop body never runs and the empty list is returned (the
final sort of an empty list is modelled as the identity). -/
def fit_results (file : String) (update nospec : Bool)
    (fams : List (List String)) : Except String (List Rat) :=
  fit_results_go file update nospec fams []

/-- np.max over a nonempty list (the source never applies it to an empty
evidence list; the zero default is unreachable). -/
def npMax : List Rat → Rat
  | [] => 0
  | x :: xs => xs.foldl max x

/-- The evidence gate of fit.py lines 46-50, exactly as written (it is
never reached at runtime, because line 38 raises first): given the number
of components of the newest family and the evidences of the results list
with the newest last, the loop would break iff the family has more than one
component and np.max of the evidences differs from the newest one. -/
def evidence_gate_breaks (n_comps : Nat) (evs : List Rat) : Bool :=
  decide (1 < n_comps) && decide (npMax evs ≠ evs.getLastD 0)

/-! ### The physical derivation engine
(Result.star_results / star_results_one, result.py lines 419-492, and
Result.disk_r_results / disk_r_results_one, lines 495-579), together with
the slicing of the global parameter vector into per-component slices
(lines 177-195) and the percentile-reduction sites of Result.get
(lines 238-338).

The weighted-percentile reducer fitting.pmn_pc lives in sdf.fitting, which
is not under src; it enters the embedding as an abstract function
pc weights samples percentile, applied at the percentiles 16, 50 and 84
exactly where the source applies it. Likewise 10 ** x and x ** 0.5 on
floats, np.pi and the astropy unit conversions are abstract, and the
irradiance of the single SpecModel of a component at a parameter sample
(spectrum.ObsSpectrum.fill_irradiance, not under src) is an abstract
function of the sample. -/

/-- External collaborators and configuration constants used by the
derivations. -/
structure Extern where
  pc : List Rat → List Rat → Rat → Rat
  pow10 : Rat → Rat
  sqrtQ : Rat → Rat
  piQ : Rat
  pc_m : Rat
  lsun_w : Rat
  rsun_m : Rat
  ssr : Rat

/-- One model component: its free-parameter names (comp[0].parameters) and
the irradiance of its spectral model at a parameter sample. -/
structure Comp where
  parameters : List String
  irr : List Rat → Rat

/-- np.zeros(n). -/
def zeros (n : Nat) : List Rat := List.replicate n 0

/-- Elementwise addition of two sample arrays (numpy +=). -/
def addDist (a b : List Rat) : List Rat := List.zipWith (· + ·) a b

/-- The per-sample 1pc luminosity distribution of a component
(result.py lines 443-455 for a star and the identical lines 534-546 for a
disk): irradiance times 4 pi pc**2 over L_sun, per parameter sample. -/
def comp_1pc_dist (x : Extern) (c : Comp) (samples : List (List Rat)) : List Rat :=
  samples.map fun par => c.irr par * 4 * x.piQ * x.pc_m ^ 2 / x.lsun_w

/-- The slicing of the global best-fit vector into per-component slices
(result.py lines 183-195): component i takes len(parameters)+1 entries
starting where the previous component stopped. -/
def comp_slices_go (bp : List Rat) : List (List String) → Nat → List (List Rat)
  | [], _ => []
  | ps :: rest, i0 =>
    ((bp.drop i0).take (ps.length + 1)) :: comp_slices_go bp rest (i0 + (ps.length + 1))

/-- comp_best_params (and with the sigma vector, comp_best_params_1sig). -/
def comp_slices (models : List (List String)) (bp : List Rat) : List (List Rat) :=
  comp_slices_go bp models 0

/-- The parameter entries of star_results_one (result.py lines 438-440):
for j over the component parameter names, the dict receives best_params[j]
and best_params_1sig[j] from the global vectors. -/
def star_param_block (best_params best_params_1sig : List Rat)
    (params : List String) : List (String × Rat) :=
  params.enum.foldl
    (fun d jp =>
      d ++ [(jp.2, best_params.getD jp.1 0), ("e_" ++ jp.2, best_params_1sig.getD jp.1 0)])
    []

/-- The lstar distribution (result.py line 472): lstar_1pc over parallax
squared, per sample. -/
def lstar_dist_of (d1 plx : List Rat) : List Rat :=
  List.zipWith (fun l p => l / p ^ 2) d1 plx

/-- The rstar distribution (result.py lines 480-483): per sample,
sqrt(ssr * 10 ** par[-1] / pi) * pc over parallax over R_sun. -/
def rstar_dist_of (x : Extern) (samples : List (List Rat)) (plx : List Rat) : List Rat :=
  List.zipWith
    (fun par p => x.sqrtQ (x.ssr * x.pow10 (par.getLastD 0) / x.piQ) * x.pc_m / p / x.rsun_m)
    samples plx

/-- Result.star_results_one (result.py lines 433-492) for one star
component: the dict of star-specifics, the dict of its distributions, and
the updated lstar_1pc_tot accumulator. tot is distributions[lstar_1pc_tot],
into which line 458 adds the lstar_1pc distribution of this component. -/
def star_results_one (x : Extern) (probs : List Rat)
    (best_params best_params_1sig : List Rat) (c : Comp)
    (samples : List (List Rat)) (parallax : Option (List Rat))
    (plx_value plx_err : Rat) (tot : List Rat) :
    List (String × Rat) × List (String × List Rat) × List Rat :=
  let star0 := star_param_block best_params best_params_1sig c.parameters
  let lstar_1pc_dist := comp_1pc_dist x c samples
  let tot2 := addDist tot lstar_1pc_dist
  let lo1 := x.pc probs lstar_1pc_dist 16
  let med1 := x.pc probs lstar_1pc_dist 50
  let hi1 := x.pc probs lstar_1pc_dist 84
  let star1 := star0 ++
    [("lstar_1pc", med1), ("e_lstar_1pc_lo", med1 - lo1),
     ("e_lstar_1pc_hi", hi1 - med1), ("e_lstar_1pc", ((med1 - lo1) + (hi1 - med1)) / 2)]
  match parallax with
  | none => (star1, [("lstar_1pc", lstar_1pc_dist)], tot2)
  | some plx =>
    let lstar_dist := lstar_dist_of lstar_1pc_dist plx
    let lo2 := x.pc probs lstar_dist 16
    let med2 := x.pc probs lstar_dist 50
    let hi2 := x.pc probs lstar_dist 84
    let rstar_dist := rstar_dist_of x samples plx
    let lo3 := x.pc probs rstar_dist 16
    let med3 := x.pc probs rstar_dist 50
    let hi3 := x.pc probs rstar_dist 84
    (star1 ++
      [("plx_arcsec", plx_value / 1000), ("e_plx_arcsec", plx_err / 1000),
       ("lstar", med2), ("e_lstar_lo", med2 - lo2), ("e_lstar_hi", hi2 - med2),
       ("e_lstar", ((med2 - lo2) + (hi2 - med2)) / 2),
       ("rstar", med3), ("e_rstar_lo", med3 - lo3), ("e_rstar_hi", hi3 - med3),
       ("e_rstar", ((med3 - lo3) + (hi3 - med3)) / 2)],
     [("lstar_1pc", lstar_1pc_dist), ("lstar", lstar_dist), ("rstar", rstar_dist)],
     tot2)

/-- Result.star_results (result.py lines 419-430): iterate the components
in order and process those whose name is in the configured star list,
threading the lstar_1pc_tot accumulator through. -/
def star_results_go (x : Extern) (cfg_star : List String) (cdata : List Comp)
    (csamples : List (List (List Rat))) (probs bp sig : List Rat)
    (parallax : Option (List Rat)) (pv pe : Rat) :
    List (Nat × String) → List (List (String × Rat)) →
    List (List (String × List Rat)) → List Rat →
    List (List (String × Rat)) × List (List (String × List Rat)) × List Rat
  | [], ds, dds, tot => (ds, dds, tot)
  | ic :: rest, ds, dds, tot =>
    if ic.2 ∈ cfg_star then
      let r := star_results_one x probs bp sig (cdata.getD ic.1 ⟨[], fun _ => 0⟩)
        (csamples.getD ic.1 []) parallax pv pe tot
      star_results_go x cfg_star cdata csamples probs bp sig parallax pv pe
        rest (ds ++ [r.1]) (dds ++ [r.2.1]) r.2.2
    else
      star_results_go x cfg_star cdata csamples probs bp sig parallax pv pe
        rest ds dds tot

/-- star_results starting from an accumulator, over the enumerated
component list. -/
def star_results (x : Extern) (cfg_star : List String) (model_comps : List String)
    (cdata : List Comp) (csamples : List (List (List Rat)))
    (probs bp sig : List Rat) (parallax : Option (List Rat)) (pv pe : Rat)
    (tot0 : List Rat) :
    List (List (String × Rat)) × List (List (String × List Rat)) × List Rat :=
  star_results_go x cfg_star cdata csamples probs bp sig parallax pv pe
    model_comps.enum [] [] tot0

/-- The parameter entries of disk_r_results_one (result.py lines 514-522):
a parameter whose name contains log_ is reported under its stripped name as
10 ** its per-component best value, with e_ entry 10 ** its per-component
sigma; any other parameter is reported unchanged. Note the values come from
the per-component slices comp_best_params[i] and comp_best_params_1sig[i],
unlike the star case. -/
def disk_param_entries (pow10 : Rat → Rat) (params : List String)
    (cbp sig : List Rat) : List (String × Rat) :=
  params.enum.foldl
    (fun d jp =>
      d ++
        (if containsSub "log_" jp.2 then
          [(replace_sub jp.2 "log_" "", pow10 (cbp.getD jp.1 0)),
           ("e_" ++ replace_sub jp.2 "log_" "", pow10 (sig.getD jp.1 0))]
        else
          [(jp.2, cbp.getD jp.1 0), ("e_" ++ jp.2, sig.getD jp.1 0)]))
    []

/-- The temp_dist local of disk_r_results_one (result.py lines 525-531): the
last parameter whose name contains Temp defines it; per sample it is
10 ** sample[j] for log_Temp, sample[j] for Temp, and stays at np.zeros for
any other Temp-containing name. It is none when no parameter name contains
Temp, in which case the later read of it raises NameError. -/
def temp_dist_of (pow10 : Rat → Rat) (params : List String)
    (samples : List (List Rat)) : Option (List Rat) :=
  params.enum.foldl
    (fun acc jp =>
      if containsSub "Temp" jp.2 then
        some (samples.map fun s =>
          if jp.2 = "log_Temp" then pow10 (s.getD jp.1 0)
          else if jp.2 = "Temp" then s.getD jp.1 0
          else 0)
      else acc)
    none

/-- The fractional-luminosity distribution (result.py line 558): the disk
1pc-luminosity samples divided elementwise by the summed star
1pc-luminosity samples. -/
def ldisk_lstar_dist_of (d1 tot : List Rat) : List Rat :=
  List.zipWith (· / ·) d1 tot

/-- The blackbody disk radius distribution (result.py lines 568-570):
lstar = lstar_1pc_tot / parallax per sample, then
sqrt(lstar) * (278.3 / temp) ** 2. -/
def rdisk_bb_dist_of (x : Extern) (tot plx td : List Rat) : List Rat :=
  List.zipWith (fun l t => x.sqrtQ l * (2783 / 10 / t) ^ 2)
    (List.zipWith (· / ·) tot plx) td

/-- Result.disk_r_results_one (result.py lines 509-579) for one disk
component, against the accumulated lstar_1pc_tot of all star components:
the fit-parameter entries, the ldisk_1pc reduction, and, only when the
summed star luminosity distribution has positive sum, the fractional
luminosity, plus the blackbody radius when a parallax distribution exists
(reading temp_dist then raises NameError if no Temp parameter defined it). -/
def disk_r_results_one (x : Extern) (probs : List Rat) (c : Comp)
    (cbp sig : List Rat) (samples : List (List Rat))
    (parallax : Option (List Rat)) (tot : List Rat) :
    Except String (List (String × Rat) × List (String × List Rat)) :=
  let d0 := disk_param_entries x.pow10 c.parameters cbp sig
  let ldisk_1pc_dist := comp_1pc_dist x c samples
  let lo1 := x.pc probs ldisk_1pc_dist 16
  let med1 := x.pc probs ldisk_1pc_dist 50
  let hi1 := x.pc probs ldisk_1pc_dist 84
  let d1 := d0 ++
    [("ldisk_1pc", med1), ("e_ldisk_1pc_lo", med1 - lo1),
     ("e_ldisk_1pc_hi", hi1 - med1), ("e_ldisk_1pc", ((med1 - lo1) + (hi1 - med1)) / 2)]
  if 0 < tot.sum then
    let ldisk_lstar_dist := ldisk_lstar_dist_of ldisk_1pc_dist tot
    let lo2 := x.pc probs ldisk_lstar_dist 16
    let med2 := x.pc probs ldisk_lstar_dist 50
    let hi2 := x.pc probs ldisk_lstar_dist 84
    let d2 := d1 ++
      [("ldisk_lstar", med2), ("e_ldisk_lstar_lo", med2 - lo2),
       ("e_ldisk_lstar_hi", hi2 - med2),
       ("e_ldisk_lstar", ((med2 - lo2) + (hi2 - med2)) / 2)]
    match parallax with
    | some plx =>
      match temp_dist_of x.pow10 c.parameters samples with
      | none => .error "NameError temp_dist"
      | some td =>
        let rdisk_bb_dist := rdisk_bb_dist_of x tot plx td
        let lo3 := x.pc probs rdisk_bb_dist 16
        let med3 := x.pc probs rdisk_bb_dist 50
        let hi3 := x.pc probs rdisk_bb_dist 84
        .ok (d2 ++
          [("rdisk_bb", med3), ("e_rdisk_bb_lo", med3 - lo3),
           ("e_rdisk_bb_hi", hi3 - med3),
           ("e_rdisk_bb", ((med3 - lo3) + (hi3 - med3)) / 2)],
          [("ldisk_1pc", ldisk_1pc_dist), ("ldisk_lstar", ldisk_lstar_dist),
           ("rdisk_bb", rdisk_bb_dist)])
    | none =>
      .ok (d2, [("ldisk_1pc", ldisk_1pc_dist), ("ldisk_lstar", ldisk_lstar_dist)])
  else
    .ok (d1, [("ldisk_1pc", ldisk_1pc_dist)])

/-! ### The percentile-reduction sites of Result.get for model photometry
(result.py lines 238-252 for the summed and per-component model fluxes and
the structurally identical blocks at lines 283-338 for star, disk and total
photometry over all filters). pmn_pc with an axis argument reduces each row
of a (filters x samples) array. -/

/-- pmn_pc applied along the sample axis of a 2-d distribution. -/
def pmn_pc_vec (pc : List Rat → List Rat → Rat → Rat) (probs : List Rat)
    (dist : List (List Rat)) (p : Rat) : List Rat :=
  dist.map fun row => pc probs row p

/-- Lines 240-244: summed model fluxes (value, lower sigma, upper sigma). -/
def model_fnujy_red (pc : List Rat → List Rat → Rat → Rat) (probs : List Rat)
    (model_dist : List (List Rat)) : List Rat × List Rat × List Rat :=
  let lo := pmn_pc_vec pc probs model_dist 16
  let v := pmn_pc_vec pc probs model_dist 50
  let hi := pmn_pc_vec pc probs model_dist 84
  (v, List.zipWith (· - ·) v lo, List.zipWith (· - ·) hi v)

/-- Lines 248-252: per-component model fluxes, reduced along axis 2. -/
def model_comp_fnujy_red (pc : List Rat → List Rat → Rat → Rat) (probs : List Rat)
    (mcd : List (List (List Rat))) :
    List (List Rat) × List (List Rat) × List (List Rat) :=
  let lo := mcd.map fun comp => pmn_pc_vec pc probs comp 16
  let v := mcd.map fun comp => pmn_pc_vec pc probs comp 50
  let hi := mcd.map fun comp => pmn_pc_vec pc probs comp 84
  (v, (List.zipWith (List.zipWith (· - ·))) v lo, (List.zipWith (List.zipWith (· - ·))) hi v)

/-- Lines 294-298: star photometry over all filters. -/
def star_phot_red (pc : List Rat → List Rat → Rat → Rat) (probs : List Rat)
    (star_phot_dist : List (List Rat)) : List Rat × List Rat × List Rat :=
  let lo := pmn_pc_vec pc probs star_phot_dist 16
  let v := pmn_pc_vec pc probs star_phot_dist 50
  let hi := pmn_pc_vec pc probs star_phot_dist 84
  (v, List.zipWith (· - ·) v lo, List.zipWith (· - ·) hi v)

/-- Lines 313-317: disk photometry over all filters. -/
def disk_phot_red (pc : List Rat → List Rat → Rat → Rat) (probs : List Rat)
    (disk_phot_dist : List (List Rat)) : List Rat × List Rat × List Rat :=
  let lo := pmn_pc_vec pc probs disk_phot_dist 16
  let v := pmn_pc_vec pc probs disk_phot_dist 50
  let hi := pmn_pc_vec pc probs disk_phot_dist 84
  (v, List.zipWith (· - ·) v lo, List.zipWith (· - ·) hi v)

/-- Lines 334-338: total photometry over all filters. -/
def all_phot_red (pc : List Rat → List Rat → Rat → Rat) (probs : List Rat)
    (all_phot_dist : List (List Rat)) : List Rat × List Rat × List Rat :=
  let lo := pmn_pc_vec pc probs all_phot_dist 16
  let v := pmn_pc_vec pc probs all_phot_dist 50
  let hi := pmn_pc_vec pc probs all_phot_dist 84
  (v, List.zipWith (· - ·) v lo, List.zipWith (· - ·) hi v)

/-! ### Dict reads and small helpers. -/

/-- First-match lookup in an association list. -/
def dlookupA {α : Type} : List (String × α) → String → Option α
  | [], _ => none
  | (k, v) :: rest, key => if key = k then some v else dlookupA rest key

/-- Python dict read over the insertion-ordered association list: the last
write to a key wins. -/
def dlookup {α : Type} (l : List (String × α)) (key : String) : Option α :=
  dlookupA l.reverse key

/-- Keys of a dict, in insertion order. -/
def dkeys {α : Type} (l : List (String × α)) : List String := l.map Prod.fst

/-! ### The Posterior Reducer, modelled from the spec.

Modelled from the spec: fitting.pmn_pc, the weighted-percentile reducer of
section 4.2, is in sdf.fitting which is not under src. For each requested
percentile it computes the weighted percentile of the samples using the
weights as importance weights; the interpolation convention is left
unspecified by the spec, and the nearest-rank convention is chosen here. It
is used only to instantiate the abstract reducer in concrete witnesses. -/

/-- Insert a (sample, weight) pair into a list sorted by sample value. -/
def insert_by_fst (key : Rat × Rat) : List (Rat × Rat) → List (Rat × Rat)
  | [] => [key]
  | h :: t => if key.1 ≤ h.1 then key :: h :: t else h :: insert_by_fst key t

/-- Insertion sort of (sample, weight) pairs by sample value. -/
def sort_by_fst : List (Rat × Rat) → List (Rat × Rat)
  | [] => []
  | h :: t => insert_by_fst h (sort_by_fst t)

/-- Walk the sorted pairs until the accumulated weight reaches the
threshold. -/
def pick_weighted (thresh : Rat) : Rat → List (Rat × Rat) → Rat
  | _, [] => 0
  | cum, (s, w) :: rest =>
    if thresh ≤ cum + w then s else pick_weighted thresh (cum + w) rest

/-- Modelled from the spec: the weighted percentile of samples with the
given weights, nearest-rank convention. -/
def pmn_pc (weights samples : List Rat) (p : Rat) : Rat :=
  let pairs := sort_by_fst (samples.zip weights)
  let total := (pairs.map Prod.snd).sum
  pick_weighted (p / 100 * total) 0 pairs

/-! ### Claim-side formulations used by refinement claims. -/

/-- The star parameter entries as claim C10 describes them: the dict for a
star component receives, for position j among its parameter names, the
leading entries best_params[j] and best_params_1sig[j] of the global
best-fit vectors. -/
def star_param_block_claim (best_params best_params_1sig : List Rat)
    (params : List String) : List (String × Rat) :=
  params.enum.flatMap fun jp =>
    [(jp.2, best_params.getD jp.1 0), ("e_" ++ jp.2, best_params_1sig.getD jp.1 0)]

/-- The disk parameter entries as claim C9 describes them: log_-flagged
parameters are exponentiated in value and sigma under the stripped name,
other parameters pass through unchanged. -/
def disk_param_entries_claim (pow10 : Rat → Rat) (params : List String)
    (cbp sig : List Rat) : List (String × Rat) :=
  params.enum.flatMap fun jp =>
    if containsSub "log_" jp.2 then
      [(replace_sub jp.2 "log_" "", pow10 (cbp.getD jp.1 0)),
       ("e_" ++ replace_sub jp.2 "log_" "", pow10 (sig.getD jp.1 0))]
    else
      [(jp.2, cbp.getD jp.1 0), ("e_" ++ jp.2, sig.getD jp.1 0)]

/-- The classification the amended claim C5 describes: star wins when an
identifier is in both configured lists, because of the elif. -/
def tag_of (starL diskL : List String) (c : String) : String :=
  if c ∈ starL then "star" else "disk"

/-! ### Concrete worlds for the cache witnesses and counterexamples. -/

/-- A small concrete configuration. -/
def cfgW : Config := ⟨["s"], ["d"], "-mn", "-m"⟩

/-- file_info of cfgW, rawphot dir/T-rawphot.txt and components [s],
written out. -/
def fiW : FileInfo :=
  ⟨["s"], ["star"], 1, "dir/T-rawphot.txt", "dir", "T", "dir/T-mn",
   "dir/T-mn/s-m", "dir/T-mn/s-m.pkl"⟩

/-- The identity block the artifact was pickled with (a different, older
directory). -/
def fiOld : FileInfo :=
  ⟨["s"], ["star"], 1, "old/T-rawphot.txt", "old", "T", "old/T-mn",
   "old/T-mn/s-m", "old/T-mn/s-m.pkl"⟩

/-- The stored (pickled) result. -/
def storedW : FitResult :=
  ⟨fiOld, 42, [1, 2], [3, 4], [("lstar_1pc_tot", [5])], [[("Teff", 6)]], [[("Temp", 7)]]⟩

/-- Mtimes of a world with a valid cache: the pickle is newer than both the
rawphot file and the marker. -/
def mtimeW : String → Option Rat := fun p =>
  if p = "dir/T-mn/s-m.pkl" then some 10
  else if p = "dir/T-rawphot.txt" then some 5
  else if p = "dir/T-mn/s-mphys_live.points" then some 3
  else none

/-- The valid-cache world. -/
def envW : Env := ⟨cfgW, "dir/T-rawphot.txt", ["s"], mtimeW, storedW, true, storedW⟩

/-- The stored result with its identity block refreshed to the current
paths. -/
def refreshedW : FitResult := { storedW with info := fiW }

/-- The valid-cache world whose rawphot file holds no usable photometry. -/
def envC : Env := { envW with phot := false }

/-- A world with no photometry and no pickle on disk. -/
def envN : Env := { envW with phot := false, mtime := fun _ => none }

/-- The key a disk fit parameter is reported under: stripped of log_ when
flagged, otherwise unchanged. -/
def disk_par_key (par : String) : String :=
  if containsSub "log_" par then replace_sub par "log_" "" else par

/-- Concrete external functions for witnesses: a reducer that returns 0,
identity-free stand-ins for the float functions, unit constants. -/
def xW : Extern := ⟨fun _ _ _ => 0, fun _ => 0, fun _ => 0, 1, 1, 1, 1, 1⟩

/-- A concrete disk component with one parameter and unit irradiance. -/
def cW : Comp := ⟨["Temp"], fun _ => 1⟩

/-- Two parameter samples. -/
def samplesW : List (List Rat) := [[2], [3]]

/-- Sample weights. -/
def probsW : List Rat := [1, 1]

/-- A positive summed star luminosity distribution. -/
def totW : List Rat := [1, 1]

/-- The disk dict disk_r_results_one produces in the witness world. -/
def dW : List (String × Rat) :=
  [("Temp", 5), ("e_Temp", 6),
   ("ldisk_1pc", 0), ("e_ldisk_1pc_lo", 0), ("e_ldisk_1pc_hi", 0), ("e_ldisk_1pc", 0),
   ("ldisk_lstar", 0), ("e_ldisk_lstar_lo", 0), ("e_ldisk_lstar_hi", 0),
   ("e_ldisk_lstar", 0)]

/-- Its distributions dict. -/
def ddW : List (String × List Rat) := [("ldisk_1pc", [4, 4]), ("ldisk_lstar", [4, 4])]

/-- The disk dict with a zero star accumulator. -/
def dZ : List (String × Rat) :=
  [("Temp", 5), ("e_Temp", 6),
   ("ldisk_1pc", 0), ("e_ldisk_1pc_lo", 0), ("e_ldisk_1pc_hi", 0), ("e_ldisk_1pc", 0)]

/-- Its distributions dict. -/
def ddZ : List (String × List Rat) := [("ldisk_1pc", [4, 4])]

/-- The disk dict of the parallax witness world. -/
def dP : List (String × Rat) :=
  [("Temp", 5), ("e_Temp", 6),
   ("ldisk_1pc", 0), ("e_ldisk_1pc_lo", 0), ("e_ldisk_1pc_hi", 0), ("e_ldisk_1pc", 0),
   ("ldisk_lstar", 0), ("e_ldisk_lstar_lo", 0), ("e_ldisk_lstar_hi", 0),
   ("e_ldisk_lstar", 0),
   ("rdisk_bb", 0), ("e_rdisk_bb_lo", 0), ("e_rdisk_bb_hi", 0), ("e_rdisk_bb", 0)]

/-- Its distributions dict. -/
def ddP : List (String × List Rat) :=
  [("ldisk_1pc", [4, 4]), ("ldisk_lstar", [4, 4]), ("rdisk_bb", [0, 0])]

/-! ### Theorems. -/

example : dirname "a/b/c-rawphot.txt" = "a/b" := by decide
example : basename "a/b/c-rawphot.txt" = "c-rawphot.txt" := by decide
example : rstrip_chars "HD1-rawphot.txt" "-rawphot.txt" = "HD1" := by decide
example : containsSub "log_" "log_Temp" = true := by decide
example : containsSub "log_" "Temp" = false := by decide
example : replace_sub "log_Temp" "log_" "" = "Temp" := by decide

example : fit_results "a/b-rawphot.txt" false false [["s"]] = .error typeErrorMsg := rfl
example : fit_results "a/b-rawphot.txt" true true [["s"], ["s", "d"]] = .error typeErrorMsg := rfl
example : fit_results "a/b-rawphot.txt" false false [] = .ok [] := rfl
example : evidence_gate_breaks 3 [10, 12, 11] = true := by decide
example : evidence_gate_breaks 2 [10, 10] = false := by decide
example : evidence_gate_breaks 1 [12, 10] = false := by decide

theorem npMax_append_single (l : List Rat) (e : Rat) :
    npMax (l ++ [e]) = match l with | [] => e | _ :: _ => max (npMax l) e := by
  cases l with
  | nil => simp [npMax]
  | cons a as =>
    simp only [npMax, List.cons_append, List.foldl_append, List.foldl_cons,
      List.foldl_nil]

theorem le_npMax_append_single (l : List Rat) (e : Rat) : e ≤ npMax (l ++ [e]) := by
  rw [npMax_append_single]
  cases l with
  | nil => simp
  | cons a as => simp

example : comp_slices [["p1"], ["p2"]] [1, 2, 3, 4] = [[1, 2], [3, 4]] := by decide

theorem dlookupA_append {α : Type} (a b : List (String × α)) (k : String) :
    dlookupA (a ++ b) k =
      match dlookupA a k with
      | some v => some v
      | none => dlookupA b k := by
  induction a with
  | nil => simp [dlookupA]
  | cons h t ih =>
    obtain ⟨k2, v⟩ := h
    by_cases hk : k = k2
    · simp [dlookupA, hk]
    · rw [List.cons_append]
      simp only [dlookupA, if_neg hk]
      exact ih

theorem dlookup_append {α : Type} (a b : List (String × α)) (k : String) :
    dlookup (a ++ b) k =
      match dlookup b k with
      | some v => some v
      | none => dlookup a k := by
  simp only [dlookup, List.reverse_append, dlookupA_append]

/-- Appending adds, to a fold over a list, one block of entries per element
in order; used to relate the dict-building loops to their closed forms. -/
theorem foldl_append_blocks {α β : Type} (f : α → List β) (l : List α) :
    ∀ init : List β,
      l.foldl (fun acc a => acc ++ f a) init = init ++ l.flatMap f := by
  induction l with
  | nil => intro init; simp
  | cons h t ih => intro init; simp [List.foldl_cons, ih (init ++ f h)]

example : pmn_pc [1, 1, 1, 1] [1, 2, 3, 4] 50 = 2 := by with_unfolding_all decide
example : pmn_pc [1, 1, 1, 1] [4, 2, 3, 1] 84 = 4 := by with_unfolding_all decide
example : pmn_pc [0, 1, 1, 0] [1, 2, 3, 4] 50 = 2 := by with_unfolding_all decide

/-! ### Claim theorems. -/

/-- C2, counterexample. The claim describes fit_results iterating the
configured family sequence, appending candidate results and stopping on an
evidence comparison; but the candidate construction at fit.py line 38
passes keyword arguments Result.__init__ does not accept, so on the
concrete two-family sequence [[s], [s, d]] the call raises TypeError at the
first family instead of ever adding a candidate or consulting evidences:
no result list exists for the stopping rule to act on. -/
theorem c2_counterexample :
    fit_results "dir/T-rawphot.txt" false false [["s"], ["s", "d"]] =
      .error typeErrorMsg ∧
    (fit_results "dir/T-rawphot.txt" false false [["s"], ["s", "d"]]).isOk = false := by
  exact ⟨rfl, rfl⟩

/-- C2, amended. The selection loop never exercises a stopping rule: for
every nonempty configured family sequence, fit_results raises the TypeError
of the line 38 construction before any candidate is fitted or appended.
The evidence gate of lines 46-50, as written (dead code), would break, once
the newest family has more than one component, exactly when the newest
evidence is strictly less than the maximum evidence over all candidates so
far (np.max differing from the last entry), not when it merely fails to
increase over the immediately preceding candidate: with evidences [10, 10]
the newest evidence fails to increase yet the gate does not break. -/
theorem c2_amended_stop_rule :
    (∀ (file : String) (update nospec : Bool) (fams : List (List String)),
      fams ≠ [] → fit_results file update nospec fams = .error typeErrorMsg) ∧
    (∀ (n_comps : Nat) (acc : List Rat) (e : Rat),
      evidence_gate_breaks n_comps (acc ++ [e]) = true ↔
        (1 < n_comps ∧ e < npMax (acc ++ [e]))) ∧
    evidence_gate_breaks 2 ([10] ++ [10]) = false := by
  refine ⟨?_, ?_, by decide⟩
  · intro file update nospec fams h
    cases fams with
    | nil => exact absurd rfl h
    | cons f rest => rfl
  · intro n_comps acc e
    unfold evidence_gate_breaks
    rw [List.getLastD_concat]
    simp only [Bool.and_eq_true, decide_eq_true_eq]
    have hle : e ≤ npMax (acc ++ [e]) := le_npMax_append_single acc e
    constructor
    · rintro ⟨h1, h2⟩
      exact ⟨h1, lt_of_le_of_ne hle (fun h3 => h2 h3.symm)⟩
    · rintro ⟨h1, h2⟩
      exact ⟨h1, (ne_of_lt h2).symm⟩

/-- C2, witness for the amended theorem at concrete inputs: a two-family
sequence raises, and the gate instance at evidences [10, 12] ++ [11] with a
three-component family satisfies its characterization. -/
theorem c2_amended_stop_rule_witness :
    ([["s"], ["s", "d"]] ≠ ([] : List (List String)) ∧
     fit_results "dir/T-rawphot.txt" false false [["s"], ["s", "d"]] =
       .error typeErrorMsg) ∧
    (evidence_gate_breaks 3 ([10, 12] ++ [11]) = true ↔
      (1 < 3 ∧ (11 : Rat) < npMax ([10, 12] ++ [11]))) ∧
    evidence_gate_breaks 2 ([10] ++ [10]) = false :=
  ⟨⟨by decide,
    c2_amended_stop_rule.1 "dir/T-rawphot.txt" false false [["s"], ["s", "d"]]
      (by decide)⟩,
   c2_amended_stop_rule.2.1 3 [10, 12] 11,
   c2_amended_stop_rule.2.2⟩

/-- C3, counterexample. On the 3-family sequence [[s], [s, d], [s, d, d]]
the claim says the selector fits the first two candidates, stops after the
2-component family and returns a list without a third entry; the code
raises TypeError at the first candidate construction (fit.py line 38), so
no fit is computed for any candidate and no list is returned at all. -/
theorem c3_counterexample :
    fit_results "dir/T-rawphot.txt" false false [["s"], ["s", "d"], ["s", "d", "d"]] =
      .error typeErrorMsg ∧
    (fit_results "dir/T-rawphot.txt" false false
      [["s"], ["s", "d"], ["s", "d", "d"]]).isOk = false := by
  exact ⟨rfl, rfl⟩

/-- C3, amended. For any configured 3-family sequence, fit_results raises
the TypeError of the first candidate construction: no FitResult is
produced or included for any candidate, in particular not for the third,
and no list is returned. (Had line 38 constructed results successfully,
the gate of lines 46-50 runs only after a candidate is appended, so it
could still not have kept the third candidate out of the list.) -/
theorem c3_amended_third_candidate (file : String) (update nospec : Bool)
    (f1 f2 f3 : List String) :
    fit_results file update nospec [f1, f2, f3] = .error typeErrorMsg := by
  rfl

/-- C5, counterexample. An identifier occurring in both configured lists is
tagged star by the elif chain, so the claim that every identifier found in
the configured disk list is tagged disk fails when the lists overlap. -/
theorem c5_counterexample :
    ("a" ∈ (["a"] : List String)) ∧
    classify_comps ["a"] ["a"] ["a"] = .ok ["star"] ∧
    classify_comps ["a"] ["a"] ["a"] ≠ .ok ["disk"] := by
  decide

/-- C5, amended. Every identifier in the configured star list is tagged
star; every identifier in the configured disk list and not in the star list
is tagged disk; an identifier in neither list makes the classification, and
with it file_info, fail with the configuration error, aborting that
candidate. -/
theorem c5_amended_classification :
    (∀ starL diskL comps, (∀ c ∈ comps, c ∈ starL ∨ c ∈ diskL) →
      classify_comps starL diskL comps = .ok (comps.map (tag_of starL diskL))) ∧
    (∀ starL diskL comps c, c ∈ comps → c ∉ starL → c ∉ diskL →
      ∃ msg, classify_comps starL diskL comps = .error msg) ∧
    (∀ (cfg : Config) (rawphot : String) comps c, c ∈ comps →
      c ∉ cfg.star → c ∉ cfg.disk →
      ∃ msg, file_info cfg rawphot comps = .error msg) := by
  have hok : ∀ starL diskL comps, (∀ c ∈ comps, c ∈ starL ∨ c ∈ diskL) →
      classify_comps starL diskL comps = .ok (comps.map (tag_of starL diskL)) := by
    intro starL diskL comps
    induction comps with
    | nil => intro _; simp [classify_comps]
    | cons c cs ih =>
      intro hall
      have hc := hall c (by simp)
      have hrest := ih (fun d hd => hall d (by simp [hd]))
      by_cases hs : c ∈ starL
      · simp [classify_comps, hs, hrest, tag_of, Except.map]
      · have hd : c ∈ diskL := hc.resolve_left hs
        simp [classify_comps, hs, hd, hrest, tag_of, Except.map]
  have herr : ∀ starL diskL comps c, c ∈ comps → c ∉ starL → c ∉ diskL →
      ∃ msg, classify_comps starL diskL comps = .error msg := by
    intro starL diskL comps c hmem hs hd
    induction comps with
    | nil => cases hmem
    | cons a as ih =>
      rcases List.mem_cons.mp hmem with h | h
      · subst h
        exact ⟨"could not assign comp " ++ c ++ " to star or disk",
          by simp [classify_comps, hs, hd]⟩
      · by_cases has : a ∈ starL
        · obtain ⟨msg, hmsg⟩ := ih h
          exact ⟨msg, by simp [classify_comps, has, hmsg, Except.map]⟩
        · by_cases had : a ∈ diskL
          · obtain ⟨msg, hmsg⟩ := ih h
            exact ⟨msg, by simp [classify_comps, has, had, hmsg, Except.map]⟩
          · exact ⟨"could not assign comp " ++ a ++ " to star or disk",
              by simp [classify_comps, has, had]⟩
  refine ⟨hok, herr, ?_⟩
  intro cfg rawphot comps c hmem hs hd
  obtain ⟨msg, hmsg⟩ := herr cfg.star cfg.disk comps c hmem hs hd
  exact ⟨msg, by simp [file_info, hmsg, Except.map]⟩

/-- C5, witness for the amended theorem at concrete inputs. -/
theorem c5_amended_classification_witness :
    (classify_comps ["s"] ["d"] ["s", "d"] = .ok ["star", "disk"]) ∧
    (∃ msg, classify_comps ["s"] ["d"] ["x"] = .error msg) ∧
    (∃ msg, file_info ⟨["s"], ["d"], "-mn", "-m"⟩ "p/q-rawphot.txt" ["x"] = .error msg) := by
  refine ⟨?_, ?_, ?_⟩
  · have h := c5_amended_classification.1 ["s"] ["d"] ["s", "d"] (by decide)
    simpa [tag_of] using h
  · exact c5_amended_classification.2.1 ["s"] ["d"] ["x"] "x" (by decide) (by decide) (by decide)
  · exact c5_amended_classification.2.2 ⟨["s"], ["d"], "-mn", "-m"⟩ "p/q-rawphot.txt" ["x"] "x"
      (by decide) (by decide) (by decide)

/-- C9. Every disk fit parameter whose name contains log_ is reported under
its stripped name as 10 raised to its best-fit value, with uncertainty
entry 10 raised to its 1 sigma value taken directly from the per-component
sigma slice (not re-derived from samples); parameters without the log_
marker pass through with value and 1 sigma unchanged. The dict-building
loop equals the claim-side closed form for every exponentiation function
and every parameter and slice content. -/
theorem c9_log_param_reporting (pow10 : Rat → Rat) (params : List String)
    (cbp sig : List Rat) :
    disk_param_entries pow10 params cbp sig =
      disk_param_entries_claim pow10 params cbp sig := by
  simp only [disk_param_entries, disk_param_entries_claim, foldl_append_blocks,
    List.nil_append]

/-- C10. The per-parameter point estimates and sigmas placed in a star
results dict of a star component are best_params[j] and best_params_1sig[j] for j
over positions 0 .. len(comp_parameters[i]) - 1, that is, the leading
entries of the global best-fit vector; concretely, for a second component
with parameters ["p2"] and global vector [1, 2, 3, 4], the dict receives 1
although the per-component slice comp_best_params[1] is [3, 4]. -/
theorem c10_star_param_indexing :
    (∀ (best_params best_params_1sig : List Rat) (params : List String),
      star_param_block best_params best_params_1sig params =
        star_param_block_claim best_params best_params_1sig params) ∧
    (star_param_block [1, 2, 3, 4] [5, 6, 7, 8] ["p2"] = [("p2", 1), ("e_p2", 5)] ∧
     comp_slices [["p1"], ["p2"]] [1, 2, 3, 4] = [[1, 2], [3, 4]] ∧
     ((1 : Rat) ≠ 3)) := by
  constructor
  · intro bp sig params
    simp only [star_param_block, star_param_block_claim, foldl_append_blocks,
      List.nil_append]
  · decide

/-- result_get reduces to the post-construction body once file_info
succeeds. -/
theorem result_get_ok (env : Env) (um ua : Bool) (fi : FileInfo)
    (hfi : file_info env.cfg env.rawphot env.model_comps = .ok fi) :
    result_get env um ua = get_after_info env fi um ua := by
  unfold result_get
  rw [hfi]

/-- The recomputation path never returns a cached outcome. -/
theorem recompute_ne_cached (env : Env) (r : FitResult) :
    (recompute env).1 ≠ Outcome.cached r := by
  unfold recompute
  cases h : env.phot <;> simp

/-- Closed form of the cache branch with both force-update flags clear:
walk the mtimes with Python short-circuiting; a missing pickle falls
through to recomputation; a missing rawphot or (only once the pickle beats
the rawphot) missing marker raises; otherwise the cache is used exactly
when the pickle mtime beats both. -/
theorem get_after_info_eq (env : Env) (fi : FileInfo) :
    get_after_info env fi false false =
      match env.mtime fi.pickle with
      | none => recompute env
      | some pt =>
        match env.mtime fi.rawphot with
        | none => (.fsError ("FileNotFoundError " ++ fi.rawphot), [])
        | some rt =>
          if rt < pt then
            match env.mtime (marker fi) with
            | none => (.fsError ("FileNotFoundError " ++ marker fi), [])
            | some mt =>
              if mt < pt then (.cached { env.stored with info := fi }, [])
              else recompute env
          else recompute env := by
  unfold get_after_info cacheDecision getmtime
  cases hp : env.mtime fi.pickle with
  | none => simp
  | some pt =>
    cases hr : env.mtime fi.rawphot with
    | none => simp
    | some rt =>
      by_cases hlt : rt < pt
      · cases hm : env.mtime (marker fi) with
        | none => simp [hlt]
        | some mt =>
          by_cases hmt : mt < pt
          · simp [hlt, hmt]
          · simp [hlt, hmt]
      · simp [hlt]

/-- C1. With both force-update flags clear, the cached pickle is loaded and
returned exactly when the pickle exists and its mtime is strictly greater
than both the rawphot mtime and the phys_live.points marker mtime (their
mtimes existing, since the code compares them); and with either flag set
the cache branch is skipped entirely and the call proceeds to the
recomputation path. -/
theorem c1_cache_validity (env : Env) (fi : FileInfo)
    (hfi : file_info env.cfg env.rawphot env.model_comps = .ok fi) :
    ((∃ r, (result_get env false false).1 = .cached r) ↔
      (∃ pt rt mt, env.mtime fi.pickle = some pt ∧ env.mtime fi.rawphot = some rt ∧
        env.mtime (marker fi) = some mt ∧ rt < pt ∧ mt < pt)) ∧
    (∀ um ua : Bool, um = true ∨ ua = true →
      result_get env um ua = recompute env) := by
  constructor
  · rw [result_get_ok env false false fi hfi, get_after_info_eq]
    cases hp : env.mtime fi.pickle with
    | none =>
      constructor
      · rintro ⟨r, hr⟩
        exact absurd hr (recompute_ne_cached env r)
      · rintro ⟨pt, rt, mt, hpt, _⟩
        cases hpt
    | some pt =>
      cases hr : env.mtime fi.rawphot with
      | none =>
        constructor
        · rintro ⟨r, hrr⟩
          simp at hrr
        · rintro ⟨pt2, rt2, mt2, hpt2, hrt2, _⟩
          cases hrt2
      | some rt =>
        dsimp only
        by_cases hlt : rt < pt
        · rw [if_pos hlt]
          cases hm : env.mtime (marker fi) with
          | none =>
            constructor
            · rintro ⟨r, hrr⟩
              simp at hrr
            · rintro ⟨pt2, rt2, mt2, hpt2, hrt2, hmt2, _⟩
              cases hmt2
          | some mt =>
            dsimp only
            by_cases hmt : mt < pt
            · rw [if_pos hmt]
              constructor
              · intro _
                exact ⟨pt, rt, mt, rfl, rfl, rfl, hlt, hmt⟩
              · intro _
                exact ⟨{ env.stored with info := fi }, rfl⟩
            · rw [if_neg hmt]
              constructor
              · rintro ⟨r, hrr⟩
                exact absurd hrr (recompute_ne_cached env r)
              · rintro ⟨pt2, rt2, mt2, hpt2, hrt2, hmt2, _, hlt2⟩
                cases hpt2
                cases hmt2
                exact absurd hlt2 hmt
        · rw [if_neg hlt]
          constructor
          · rintro ⟨r, hrr⟩
            exact absurd hrr (recompute_ne_cached env r)
          · rintro ⟨pt2, rt2, mt2, hpt2, hrt2, _, hlt2, _⟩
            cases hpt2
            cases hrt2
            exact absurd hlt2 hlt
  · intro um ua h
    rw [result_get_ok env um ua fi hfi]
    unfold get_after_info
    rcases h with h | h
    · rw [h]
      simp
    · rw [h]
      simp

/-- C8. Whenever Result.get returns a cached result, the returned object is
the unpickled stored result whose path identity block has been replaced, in
place, by file_info of the current call arguments, while the stored
evidence, parameter vectors, distributions and derived star and disk
results are returned unchanged from the artifact. -/
theorem c8_cache_refresh (env : Env) (um ua : Bool) (fi : FileInfo) (r : FitResult)
    (hfi : file_info env.cfg env.rawphot env.model_comps = .ok fi)
    (hc : (result_get env um ua).1 = .cached r) :
    r.info = fi ∧ r.evidence = env.stored.evidence ∧
    r.best_params = env.stored.best_params ∧
    r.best_params_1sig = env.stored.best_params_1sig ∧
    r.distributions = env.stored.distributions ∧
    r.star = env.stored.star ∧ r.disk_r = env.stored.disk_r := by
  rw [result_get_ok env um ua fi hfi] at hc
  unfold get_after_info at hc
  by_cases hcond : (!um && !ua && (env.mtime fi.pickle).isSome) = true
  · rw [if_pos hcond] at hc
    cases hcd : cacheDecision env fi with
    | error e =>
      rw [hcd] at hc
      simp at hc
    | ok b =>
      rw [hcd] at hc
      cases b with
      | false => exact absurd hc (recompute_ne_cached env r)
      | true =>
        simp only [Outcome.cached.injEq] at hc
        rw [← hc]
        exact ⟨rfl, rfl, rfl, rfl, rfl, rfl, rfl⟩
  · rw [if_neg hcond] at hc
    exact absurd hc (recompute_ne_cached env r)

example : file_info cfgW "dir/T-rawphot.txt" ["s"] = .ok fiW := by decide

/-- C1, witness: in the valid-cache world the cache is returned, and the
mtime characterization plus the force-update conclusion hold there. -/
theorem c1_cache_validity_witness :
    file_info envW.cfg envW.rawphot envW.model_comps = .ok fiW ∧
    (((∃ r, (result_get envW false false).1 = .cached r) ↔
      (∃ pt rt mt, envW.mtime fiW.pickle = some pt ∧ envW.mtime fiW.rawphot = some rt ∧
        envW.mtime (marker fiW) = some mt ∧ rt < pt ∧ mt < pt)) ∧
     (∀ um ua : Bool, um = true ∨ ua = true →
       result_get envW um ua = recompute envW)) :=
  ⟨by decide, c1_cache_validity envW fiW (by decide)⟩

/-- C8, witness: the valid-cache world returns the unpickled result with
refreshed identity, equal to the stored payload everywhere else. -/
theorem c8_cache_refresh_witness :
    file_info envW.cfg envW.rawphot envW.model_comps = .ok fiW ∧
    (result_get envW false false).1 = .cached refreshedW ∧
    (refreshedW.info = fiW ∧ refreshedW.evidence = envW.stored.evidence ∧
     refreshedW.best_params = envW.stored.best_params ∧
     refreshedW.best_params_1sig = envW.stored.best_params_1sig ∧
     refreshedW.distributions = envW.stored.distributions ∧
     refreshedW.star = envW.stored.star ∧ refreshedW.disk_r = envW.stored.disk_r) :=
  ⟨by decide, by decide,
   c8_cache_refresh envW false false fiW refreshedW (by decide) (by decide)⟩

/-- C6, counterexample. The claim says that with no usable photometry
Result.get returns no result; but the cache branch runs before the
photometry is read, so in a world where a valid pickle exists for a target
whose rawphot file has no photometry, get returns the cached result, not
None. -/
theorem c6_counterexample :
    envC.phot = false ∧
    (result_get envC false false).1 = .cached refreshedW ∧
    (result_get envC false false).1 ≠ .noData := by
  decide

/-- C6, amended. When the Result.get call reaches the recomputation path
(in particular whenever a force flag is set or no pickle exists), a target
with no usable photometry yields the no-data outcome with no
inference-engine invocation, a defined no-data outcome; fit_results,
however, cannot yield None for any target with a nonempty configured
family sequence: its candidate construction at fit.py line 38 raises
TypeError before the photometry short-circuit of lines 40-44 can run. -/
theorem c6_amended_no_data :
    (∀ env : Env, env.phot = false →
      (recompute env).1 = .noData ∧ Effect.runMultinest ∉ (recompute env).2) ∧
    (∀ (env : Env) (fi : FileInfo) (um ua : Bool),
      file_info env.cfg env.rawphot env.model_comps = .ok fi →
      (um = true ∨ env.mtime fi.pickle = none) →
      result_get env um ua = recompute env) ∧
    (∀ (file : String) (update nospec : Bool) (fams : List (List String)),
      fams ≠ [] → fit_results file update nospec fams = .error typeErrorMsg) := by
  refine ⟨?_, ?_, ?_⟩
  · intro env h
    unfold recompute
    rw [h]
    simp
  · intro env fi um ua hfi h
    rw [result_get_ok env um ua fi hfi]
    unfold get_after_info
    rcases h with h | h
    · rw [h]
      simp
    · rw [h]
      simp
  · intro file update nospec fams h
    cases fams with
    | nil => exact absurd rfl h
    | cons f rest => rfl

/-- C6, witness for the amended theorem: a pickle-less world with no
photometry reaches the recomputation path and yields noData without
running multinest, while the selection loop raises on a one-family list. -/
theorem c6_amended_no_data_witness :
    envN.phot = false ∧
    ((recompute envN).1 = .noData ∧ Effect.runMultinest ∉ (recompute envN).2) ∧
    file_info envN.cfg envN.rawphot envN.model_comps = .ok fiW ∧
    result_get envN false false = recompute envN ∧
    fit_results "dir/T-rawphot.txt" false false [["s"]] = .error typeErrorMsg :=
  ⟨rfl, c6_amended_no_data.1 envN rfl,
   by decide,
   c6_amended_no_data.2.1 envN fiW false false (by decide) (Or.inr rfl),
   c6_amended_no_data.2.2 "dir/T-rawphot.txt" false false [["s"]] (by decide)⟩

/-- One star component adds exactly its 1pc-luminosity distribution to the
lstar_1pc_tot accumulator. -/
theorem star_results_one_tot (x : Extern) (probs bp sig : List Rat) (c : Comp)
    (samples : List (List Rat)) (parallax : Option (List Rat)) (pv pe : Rat)
    (tot : List Rat) :
    (star_results_one x probs bp sig c samples parallax pv pe tot).2.2 =
      addDist tot (comp_1pc_dist x c samples) := by
  unfold star_results_one
  cases parallax <;> rfl

/-- The star loop accumulates, onto the incoming accumulator, the
1pc-luminosity distributions of exactly the components in the configured
star list, in order. -/
theorem star_results_go_tot (x : Extern) (cfg_star : List String) (cdata : List Comp)
    (csamples : List (List (List Rat))) (probs bp sig : List Rat)
    (parallax : Option (List Rat)) (pv pe : Rat) :
    ∀ (l : List (Nat × String)) (ds : List (List (String × Rat)))
      (dds : List (List (String × List Rat))) (tot : List Rat),
      (star_results_go x cfg_star cdata csamples probs bp sig parallax pv pe
        l ds dds tot).2.2 =
      (l.filter (fun ic => ic.2 ∈ cfg_star)).foldl
        (fun t ic => addDist t
          (comp_1pc_dist x (cdata.getD ic.1 ⟨[], fun _ => 0⟩) (csamples.getD ic.1 [])))
        tot := by
  intro l
  induction l with
  | nil => intro ds dds tot; simp [star_results_go]
  | cons ic rest ih =>
    intro ds dds tot
    by_cases h : ic.2 ∈ cfg_star
    · simp only [star_results_go, if_pos h, List.filter_cons, h, decide_true_eq_true,
        if_true, List.foldl_cons, ih, star_results_one_tot]
    · simp only [star_results_go, if_neg h, ih]
      rw [List.filter_cons]
      simp [h]

/-- A member of an enumerated list has its second component in the list. -/
theorem snd_mem_of_mem_enumFrom {α : Type} :
    ∀ (l : List α) (n : Nat) (p : Nat × α), p ∈ l.enumFrom n → p.2 ∈ l := by
  intro l
  induction l with
  | nil => intro n p hp; cases hp
  | cons a as ih =>
    intro n p hp
    rcases List.mem_cons.mp hp with h | h
    · subst h; simp
    · exact List.mem_cons_of_mem a (ih (n + 1) p h)

/-- Keys contributed per parameter do not depend on the enumeration index. -/
theorem dkeys_disk_param_aux (pow10 : Rat → Rat) (cbp sig : List Rat) :
    ∀ (l : List String) (n : Nat),
      (l.enumFrom n).flatMap (fun jp =>
        List.map Prod.fst
          (if containsSub "log_" jp.2 then
            [(replace_sub jp.2 "log_" "", pow10 (cbp.getD jp.1 0)),
             ("e_" ++ replace_sub jp.2 "log_" "", pow10 (sig.getD jp.1 0))]
          else
            [(jp.2, cbp.getD jp.1 0), ("e_" ++ jp.2, sig.getD jp.1 0)])) =
      l.flatMap fun par => [disk_par_key par, "e_" ++ disk_par_key par] := by
  intro l
  induction l with
  | nil => intro n; rfl
  | cons a as ih =>
    intro n
    simp only [List.enumFrom, List.flatMap_cons, ih (n + 1)]
    by_cases hlog : containsSub "log_" a
    · simp [hlog, disk_par_key]
    · simp [hlog, disk_par_key]

/-- The keys written by the disk parameter loop. -/
theorem dkeys_disk_param_entries (pow10 : Rat → Rat) (params : List String)
    (cbp sig : List Rat) :
    dkeys (disk_param_entries pow10 params cbp sig) =
      params.flatMap fun par => [disk_par_key par, "e_" ++ disk_par_key par] := by
  unfold dkeys
  rw [show disk_param_entries pow10 params cbp sig =
      params.enum.flatMap (fun jp =>
        if containsSub "log_" jp.2 then
          [(replace_sub jp.2 "log_" "", pow10 (cbp.getD jp.1 0)),
           ("e_" ++ replace_sub jp.2 "log_" "", pow10 (sig.getD jp.1 0))]
        else
          [(jp.2, cbp.getD jp.1 0), ("e_" ++ jp.2, sig.getD jp.1 0)])
    from by
      simp only [disk_param_entries, foldl_append_blocks, List.nil_append]]
  rw [List.map_flatMap]
  exact dkeys_disk_param_aux pow10 cbp sig params 0

/-- C4. For a disk component: when the summed star 1pc-luminosity sample
array is positive, the ldisk_lstar entry is the weighted median of the disk
1pc-luminosity samples divided elementwise by that summed array (summed
before division, division before reduction), and the corresponding
distribution entry is exactly that elementwise quotient; the accumulator
the disk sees is the fold of the per-star-component 1pc-luminosity
distributions, starting from zeros, so with no star component it stays
zeros; and with a non-positive sum (in particular, no star component) the
ldisk_lstar key is absent from the disk dict and from its distributions
(absent from the dict under the side condition that no fit-parameter name
collides with it). -/
theorem c4_ldisk_lstar :
    (∀ (x : Extern) (probs : List Rat) (c : Comp) (cbp sig : List Rat)
       (samples : List (List Rat)) (parallax : Option (List Rat)) (tot : List Rat)
       (d : List (String × Rat)) (dd : List (String × List Rat)),
      0 < tot.sum →
      disk_r_results_one x probs c cbp sig samples parallax tot = .ok (d, dd) →
      ("ldisk_lstar",
        x.pc probs (ldisk_lstar_dist_of (comp_1pc_dist x c samples) tot) 50) ∈ d ∧
      ("ldisk_lstar", ldisk_lstar_dist_of (comp_1pc_dist x c samples) tot) ∈ dd) ∧
    (∀ (x : Extern) (cfg_star : List String) (cdata : List Comp)
       (csamples : List (List (List Rat))) (probs bp sig : List Rat)
       (parallax : Option (List Rat)) (pv pe : Rat)
       (l : List (Nat × String)) (ds : List (List (String × Rat)))
       (dds : List (List (String × List Rat))) (tot : List Rat),
      (star_results_go x cfg_star cdata csamples probs bp sig parallax pv pe
        l ds dds tot).2.2 =
      (l.filter (fun ic => ic.2 ∈ cfg_star)).foldl
        (fun t ic => addDist t
          (comp_1pc_dist x (cdata.getD ic.1 ⟨[], fun _ => 0⟩) (csamples.getD ic.1 [])))
        tot) ∧
    (∀ (x : Extern) (cfg_star : List String) (model_comps : List String)
       (cdata : List Comp) (csamples : List (List (List Rat)))
       (probs bp sig : List Rat) (parallax : Option (List Rat)) (pv pe : Rat) (n : Nat),
      (∀ comp ∈ model_comps, comp ∉ cfg_star) →
      (star_results x cfg_star model_comps cdata csamples probs bp sig parallax pv pe
        (zeros n)).2.2 = zeros n) ∧
    (∀ (x : Extern) (probs : List Rat) (c : Comp) (cbp sig : List Rat)
       (samples : List (List Rat)) (parallax : Option (List Rat)) (tot : List Rat)
       (d : List (String × Rat)) (dd : List (String × List Rat)),
      tot.sum ≤ 0 →
      (∀ par ∈ c.parameters, disk_par_key par ≠ "ldisk_lstar" ∧
        "e_" ++ disk_par_key par ≠ "ldisk_lstar") →
      disk_r_results_one x probs c cbp sig samples parallax tot = .ok (d, dd) →
      "ldisk_lstar" ∉ dkeys d ∧ "ldisk_lstar" ∉ dkeys dd) := by
  refine ⟨?_, ?_, ?_, ?_⟩
  · intro x probs c cbp sig samples parallax tot d dd hsum hd
    unfold disk_r_results_one at hd
    rw [if_pos hsum] at hd
    cases parallax with
    | none =>
      simp only [Except.ok.injEq, Prod.mk.injEq] at hd
      obtain ⟨h1, h2⟩ := hd
      subst h1
      subst h2
      constructor
      · exact List.mem_append.mpr (Or.inr (by simp))
      · simp
    | some plx =>
      cases htd : temp_dist_of x.pow10 c.parameters samples with
      | none =>
        rw [htd] at hd
        cases hd
      | some td =>
        rw [htd] at hd
        simp only [Except.ok.injEq, Prod.mk.injEq] at hd
        obtain ⟨h1, h2⟩ := hd
        subst h1
        subst h2
        constructor
        · exact List.mem_append.mpr (Or.inl (List.mem_append.mpr (Or.inr (by simp))))
        · simp
  · exact star_results_go_tot
  · intro x cfg_star model_comps cdata csamples probs bp sig parallax pv pe n hnostar
    unfold star_results
    rw [star_results_go_tot]
    have hfil : model_comps.enum.filter (fun ic => ic.2 ∈ cfg_star) = [] := by
      rw [List.filter_eq_nil_iff]
      intro ic hic
      have h2 : ic.2 ∈ model_comps := snd_mem_of_mem_enumFrom model_comps 0 ic hic
      simp [hnostar ic.2 h2]
    rw [hfil]
    rfl
  · intro x probs c cbp sig samples parallax tot d dd hsum hpar hd
    unfold disk_r_results_one at hd
    rw [if_neg (by exact not_lt.mpr hsum)] at hd
    simp only [Except.ok.injEq, Prod.mk.injEq] at hd
    obtain ⟨h1, h2⟩ := hd
    subst h1
    subst h2
    constructor
    · intro hmem
      unfold dkeys at hmem
      rw [List.map_append] at hmem
      rcases List.mem_append.mp hmem with h | h
      · rw [show List.map Prod.fst (disk_param_entries x.pow10 c.parameters cbp sig) =
            dkeys (disk_param_entries x.pow10 c.parameters cbp sig) from rfl,
          dkeys_disk_param_entries] at h
        rcases List.mem_flatMap.mp h with ⟨par, hparmem, hkey⟩
        rcases hpar par hparmem with ⟨hk1, hk2⟩
        rcases List.mem_cons.mp hkey with h3 | h3
        · exact hk1 h3.symm
        · rcases List.mem_cons.mp h3 with h4 | h4
          · exact hk2 h4.symm
          · cases h4
      · simp at h
    · intro hmem
      simp [dkeys] at hmem

/-- C4, witness: the three parts instantiated in the witness world. -/
theorem c4_ldisk_lstar_witness :
    (0 < totW.sum ∧
     disk_r_results_one xW probsW cW [5] [6] samplesW none totW = .ok (dW, ddW) ∧
     (("ldisk_lstar",
        xW.pc probsW (ldisk_lstar_dist_of (comp_1pc_dist xW cW samplesW) totW) 50) ∈ dW ∧
      ("ldisk_lstar", ldisk_lstar_dist_of (comp_1pc_dist xW cW samplesW) totW) ∈ ddW)) ∧
    ((∀ comp ∈ ["bb"], comp ∉ ["phoenix"]) ∧
     (star_results xW ["phoenix"] ["bb"] [] [] [] [] [] none 0 0 (zeros 2)).2.2 = zeros 2) ∧
    ((zeros 2).sum ≤ 0 ∧
     (∀ par ∈ cW.parameters, disk_par_key par ≠ "ldisk_lstar" ∧
       "e_" ++ disk_par_key par ≠ "ldisk_lstar") ∧
     disk_r_results_one xW probsW cW [5] [6] samplesW none (zeros 2) = .ok (dZ, ddZ) ∧
     ("ldisk_lstar" ∉ dkeys dZ ∧ "ldisk_lstar" ∉ dkeys ddZ)) := by
  refine ⟨⟨?_, ?_, ?_⟩, ⟨?_, ?_⟩, ⟨?_, ?_, ?_, ?_⟩⟩
  · with_unfolding_all decide
  · with_unfolding_all decide
  · exact c4_ldisk_lstar.1 xW probsW cW [5] [6] samplesW none totW dW ddW
      (by with_unfolding_all decide) (by with_unfolding_all decide)
  · decide
  · exact c4_ldisk_lstar.2.2.1 xW ["phoenix"] ["bb"] [] [] [] [] [] none 0 0 2 (by decide)
  · with_unfolding_all decide
  · decide
  · with_unfolding_all decide
  · exact c4_ldisk_lstar.2.2.2 xW probsW cW [5] [6] samplesW none (zeros 2) dZ ddZ
      (by with_unfolding_all decide) (by decide) (by with_unfolding_all decide)

/-- C7. Every quantity reported with uncertainties is reduced from its
sample distribution by the weighted percentile reducer at 16, 50 and 84:
the point estimate is the 50th percentile and the uncertainties are median
minus 16th and 84th minus median. This holds for the summed and
per-component model photometry and the star, disk and total photometry
blocks of Result.get, for lstar_1pc, lstar and rstar in a star dict, and
for ldisk_1pc, ldisk_lstar and rdisk_bb in a disk dict, each over exactly
its own sample-wise distribution with the posterior sample weights. -/
theorem c7_percentile_reduction :
    (∀ (pc : List Rat → List Rat → Rat → Rat) (probs : List Rat)
       (dist2 : List (List Rat)) (dist3 : List (List (List Rat))),
      model_fnujy_red pc probs dist2 =
        (pmn_pc_vec pc probs dist2 50,
         List.zipWith (· - ·) (pmn_pc_vec pc probs dist2 50) (pmn_pc_vec pc probs dist2 16),
         List.zipWith (· - ·) (pmn_pc_vec pc probs dist2 84) (pmn_pc_vec pc probs dist2 50)) ∧
      star_phot_red pc probs dist2 = model_fnujy_red pc probs dist2 ∧
      disk_phot_red pc probs dist2 = model_fnujy_red pc probs dist2 ∧
      all_phot_red pc probs dist2 = model_fnujy_red pc probs dist2 ∧
      model_comp_fnujy_red pc probs dist3 =
        (dist3.map (fun comp => pmn_pc_vec pc probs comp 50),
         List.zipWith (List.zipWith (· - ·))
           (dist3.map (fun comp => pmn_pc_vec pc probs comp 50))
           (dist3.map (fun comp => pmn_pc_vec pc probs comp 16)),
         List.zipWith (List.zipWith (· - ·))
           (dist3.map (fun comp => pmn_pc_vec pc probs comp 84))
           (dist3.map (fun comp => pmn_pc_vec pc probs comp 50)))) ∧
    (∀ (x : Extern) (probs bp sig : List Rat) (c : Comp)
       (samples : List (List Rat)) (plx : List Rat) (pv pe : Rat) (tot : List Rat),
      ("lstar_1pc",
        x.pc probs (comp_1pc_dist x c samples) 50) ∈
          (star_results_one x probs bp sig c samples (some plx) pv pe tot).1 ∧
      ("e_lstar_1pc_lo",
        x.pc probs (comp_1pc_dist x c samples) 50 -
          x.pc probs (comp_1pc_dist x c samples) 16) ∈
          (star_results_one x probs bp sig c samples (some plx) pv pe tot).1 ∧
      ("e_lstar_1pc_hi",
        x.pc probs (comp_1pc_dist x c samples) 84 -
          x.pc probs (comp_1pc_dist x c samples) 50) ∈
          (star_results_one x probs bp sig c samples (some plx) pv pe tot).1 ∧
      ("lstar",
        x.pc probs (lstar_dist_of (comp_1pc_dist x c samples) plx) 50) ∈
          (star_results_one x probs bp sig c samples (some plx) pv pe tot).1 ∧
      ("e_lstar_lo",
        x.pc probs (lstar_dist_of (comp_1pc_dist x c samples) plx) 50 -
          x.pc probs (lstar_dist_of (comp_1pc_dist x c samples) plx) 16) ∈
          (star_results_one x probs bp sig c samples (some plx) pv pe tot).1 ∧
      ("e_lstar_hi",
        x.pc probs (lstar_dist_of (comp_1pc_dist x c samples) plx) 84 -
          x.pc probs (lstar_dist_of (comp_1pc_dist x c samples) plx) 50) ∈
          (star_results_one x probs bp sig c samples (some plx) pv pe tot).1 ∧
      ("rstar",
        x.pc probs (rstar_dist_of x samples plx) 50) ∈
          (star_results_one x probs bp sig c samples (some plx) pv pe tot).1 ∧
      ("e_rstar_lo",
        x.pc probs (rstar_dist_of x samples plx) 50 -
          x.pc probs (rstar_dist_of x samples plx) 16) ∈
          (star_results_one x probs bp sig c samples (some plx) pv pe tot).1 ∧
      ("e_rstar_hi",
        x.pc probs (rstar_dist_of x samples plx) 84 -
          x.pc probs (rstar_dist_of x samples plx) 50) ∈
          (star_results_one x probs bp sig c samples (some plx) pv pe tot).1) ∧
    (∀ (x : Extern) (probs : List Rat) (c : Comp) (cbp sig : List Rat)
       (samples : List (List Rat)) (plx : List Rat) (td : List Rat)
       (tot : List Rat) (d : List (String × Rat)) (dd : List (String × List Rat)),
      0 < tot.sum →
      temp_dist_of x.pow10 c.parameters samples = some td →
      disk_r_results_one x probs c cbp sig samples (some plx) tot = .ok (d, dd) →
      ("ldisk_1pc", x.pc probs (comp_1pc_dist x c samples) 50) ∈ d ∧
      ("e_ldisk_1pc_lo",
        x.pc probs (comp_1pc_dist x c samples) 50 -
          x.pc probs (comp_1pc_dist x c samples) 16) ∈ d ∧
      ("e_ldisk_1pc_hi",
        x.pc probs (comp_1pc_dist x c samples) 84 -
          x.pc probs (comp_1pc_dist x c samples) 50) ∈ d ∧
      ("ldisk_lstar",
        x.pc probs (ldisk_lstar_dist_of (comp_1pc_dist x c samples) tot) 50) ∈ d ∧
      ("e_ldisk_lstar_lo",
        x.pc probs (ldisk_lstar_dist_of (comp_1pc_dist x c samples) tot) 50 -
          x.pc probs (ldisk_lstar_dist_of (comp_1pc_dist x c samples) tot) 16) ∈ d ∧
      ("e_ldisk_lstar_hi",
        x.pc probs (ldisk_lstar_dist_of (comp_1pc_dist x c samples) tot) 84 -
          x.pc probs (ldisk_lstar_dist_of (comp_1pc_dist x c samples) tot) 50) ∈ d ∧
      ("rdisk_bb", x.pc probs (rdisk_bb_dist_of x tot plx td) 50) ∈ d ∧
      ("e_rdisk_bb_lo",
        x.pc probs (rdisk_bb_dist_of x tot plx td) 50 -
          x.pc probs (rdisk_bb_dist_of x tot plx td) 16) ∈ d ∧
      ("e_rdisk_bb_hi",
        x.pc probs (rdisk_bb_dist_of x tot plx td) 84 -
          x.pc probs (rdisk_bb_dist_of x tot plx td) 50) ∈ d) := by
  refine ⟨?_, ?_, ?_⟩
  · intro pc probs dist2 dist3
    exact ⟨rfl, rfl, rfl, rfl, rfl⟩
  · intro x probs bp sig c samples plx pv pe tot
    unfold star_results_one
    refine ⟨?_, ?_, ?_, ?_, ?_, ?_, ?_, ?_, ?_⟩ <;>
      · dsimp only
        simp
  · intro x probs c cbp sig samples plx td tot d dd hsum htd hd
    unfold disk_r_results_one at hd
    rw [if_pos hsum, htd] at hd
    simp only [Except.ok.injEq, Prod.mk.injEq] at hd
    obtain ⟨h1, h2⟩ := hd
    subst h1
    refine ⟨?_, ?_, ?_, ?_, ?_, ?_, ?_, ?_, ?_⟩ <;>
      · dsimp only
        simp

/-- C7, witness: the hypotheses of the disk part hold in the witness world
and the reductions are found in the produced dicts. -/
theorem c7_percentile_reduction_witness :
    0 < totW.sum ∧
    temp_dist_of xW.pow10 cW.parameters samplesW = some [2, 3] ∧
    disk_r_results_one xW probsW cW [5] [6] samplesW (some [1, 1]) totW = .ok (dP, ddP) ∧
    ("ldisk_lstar",
      xW.pc probsW (ldisk_lstar_dist_of (comp_1pc_dist xW cW samplesW) totW) 50) ∈ dP ∧
    ("rdisk_bb",
      xW.pc probsW (rdisk_bb_dist_of xW totW [1, 1] [2, 3]) 50) ∈ dP ∧
    ("lstar_1pc",
      xW.pc probsW (comp_1pc_dist xW cW samplesW) 50) ∈
        (star_results_one xW probsW [5] [6] cW samplesW (some [1, 1]) 0 0 totW).1 := by
  refine ⟨?_, ?_, ?_, ?_, ?_, ?_⟩
  · with_unfolding_all decide
  · with_unfolding_all decide
  · with_unfolding_all decide
  · exact (c7_percentile_reduction.2.2 xW probsW cW [5] [6] samplesW [1, 1] [2, 3]
      totW dP ddP (by with_unfolding_all decide) (by with_unfolding_all decide)
      (by with_unfolding_all decide)).2.2.2.1
  · exact (c7_percentile_reduction.2.2 xW probsW cW [5] [6] samplesW [1, 1] [2, 3]
      totW dP ddP (by with_unfolding_all decide) (by with_unfolding_all decide)
      (by with_unfolding_all decide)).2.2.2.2.2.2.1
  · exact (c7_percentile_reduction.2.1 xW probsW [5] [6] cW samplesW [1, 1] 0 0 totW).1
